import Mathlib

/-!
Verification of the convo-frontend chat client against its specification.

The development shallowly embeds the relevant TypeScript/React code:
- `src/components/ui/toast.tsx` (the notification queue: `useToast` with
  `addToast` / `removeToast` and the 5000 ms auto-removal timer);
- the chat-room page (`ChatRoom`): the `fetchRoomInfo` / `fetchMessages`
  response handlers, the `handleSend` handler, and the rendered view,
  including the merged message list `[...messages, ...socketMessages]`.

React `useState` hooks become fields of explicit state records; each
`async` handler becomes a function from the awaited response and the
pre-state to the post-state (plus, for `handleSend`, the list of emitted
transport effects). `setTimeout` callbacks become explicit events applied
to the state at firing time.
-/

/-- The `user` field of a chat `Message` (interface `Message` in the
chat-room page). -/
structure MsgUser where
  id : String
  username : String
deriving DecidableEq, Repr

/-- A chat message as declared in the chat-room page: `createdAt` is the
ISO timestamp string as delivered by the server. -/
structure Message where
  id : String
  content : String
  createdAt : String
  user : MsgUser
deriving DecidableEq, Repr

/-- Room metadata (interface `RoomInfo` in the chat-room page). -/
structure RoomInfo where
  id : String
  name : String
  memberCount : Nat
deriving DecidableEq, Repr

/-- One entry of the notification queue, as held in the `toasts` state of
`useToast` (`toast.tsx`): `id` is a string, `title` and `description` are
optional. -/
structure ToastItem where
  id : String
  kind : String
  title : Option String
  description : Option String
deriving DecidableEq, Repr

/-- The argument of `addToast`: a toast without its `id`
(`Omit<..., "id">` in `toast.tsx`). -/
structure ToastInput where
  kind : String
  title : Option String
  description : Option String
deriving DecidableEq, Repr

/-- The state owned by `useToast`: the `toasts` queue plus the removals
scheduled by `setTimeout` (each pending timer is the pair of its firing
time and the id its callback removes). -/
structure ToastState where
  toasts : List ToastItem
  timers : List (Nat × String)
deriving DecidableEq, Repr

/-- `addToast` from `toast.tsx`: the fresh id is `Date.now().toString()`
(`toString now` here, `now` being the current time in milliseconds), the
entry is appended (`[...prev, {...toast, id}]`), and a removal of that id
is scheduled 5000 ms later. -/
def addToast (now : Nat) (inp : ToastInput) (ts : ToastState) : ToastState :=
  let id := toString now
  { toasts := ts.toasts ++ [⟨id, inp.kind, inp.title, inp.description⟩],
    timers := ts.timers ++ [(now + 5000, id)] }

/-- `removeToast` from `toast.tsx`:
`setToasts(prev => prev.filter(t => t.id !== id))`. -/
def removeToast (id : String) (ts : ToastState) : ToastState :=
  { ts with toasts := ts.toasts.filter (fun t => t.id != id) }

/-- The body of the `setTimeout` callback scheduled by `addToast`, executed
at firing time: `setToasts(prev => prev.filter(t => t.id !== id))`. -/
def timerFire (id : String) (ts : ToastState) : ToastState :=
  { ts with toasts := ts.toasts.filter (fun t => t.id != id) }

/-- C4: a notification added at time `now` gets a removal scheduled for
`now + 5000` under its assigned id `toString now`, and whenever that
scheduled removal executes (on any queue state it finds), the resulting
queue holds no entry with that id. This holds whether or not a manual
removal ran in between, which covers the claim's "no manual removal"
case. -/
theorem c4_expiry (now : Nat) (inp : ToastInput) (ts later : ToastState)
    (t : ToastItem) (h : t ∈ (timerFire (toString now) later).toasts) :
    (now + 5000, toString now) ∈ (addToast now inp ts).timers ∧
      t.id ≠ toString now := by
  constructor
  · simp [addToast]
  · simp only [timerFire, List.mem_filter, bne_iff_ne] at h
    exact h.2

/-- C4 witness: concrete instance with `now = 7`; the state at firing time
holds a surviving toast with a different id. -/
theorem c4_expiry_witness :
    (7 + 5000, toString 7) ∈
        (addToast 7 ⟨"info", none, none⟩ ⟨[], []⟩).timers ∧
      (ToastItem.mk "8" "error" none none).id ≠ toString 7 :=
  c4_expiry 7 ⟨"info", none, none⟩ ⟨[], []⟩
    ⟨[⟨"8", "error", none, none⟩, ⟨"7", "info", none, none⟩], []⟩
    ⟨"8", "error", none, none⟩ (by decide)

/-- C5: removal is idempotent and safe against the timer race: removing
the same id twice equals removing it once; the auto-removal firing after a
manual removal (and vice versa) leaves the queue as after the first
removal; and removing an id absent from the queue is the identity. -/
theorem c5_idempotent_removal (ts ts' : ToastState) (x : String)
    (h : x ∉ ts.toasts.map ToastItem.id) :
    removeToast x (removeToast x ts') = removeToast x ts' ∧
      timerFire x (removeToast x ts') = removeToast x ts' ∧
      removeToast x (timerFire x ts') = timerFire x ts' ∧
      removeToast x ts = ts := by
  refine ⟨?_, ?_, ?_, ?_⟩
  · simp [removeToast, List.filter_filter]
  · simp [removeToast, timerFire, List.filter_filter]
  · simp [removeToast, timerFire, List.filter_filter]
  · have hall : ts.toasts.filter (fun t => t.id != x) = ts.toasts := by
      refine List.filter_eq_self.mpr ?_
      intro a ha
      refine bne_iff_ne.mpr ?_
      intro hax
      exact h (hax ▸ List.mem_map_of_mem ToastItem.id ha)
    simp [removeToast, hall]

/-- C5 witness: concrete queues; `"z"` is absent from the second queue. -/
theorem c5_idempotent_removal_witness :
    removeToast "z"
          (removeToast "z" ⟨[⟨"z", "info", none, none⟩], []⟩) =
        removeToast "z" ⟨[⟨"z", "info", none, none⟩], []⟩ ∧
      timerFire "z" (removeToast "z" ⟨[⟨"z", "info", none, none⟩], []⟩) =
        removeToast "z" ⟨[⟨"z", "info", none, none⟩], []⟩ ∧
      removeToast "z" (timerFire "z" ⟨[⟨"z", "info", none, none⟩], []⟩) =
        timerFire "z" ⟨[⟨"z", "info", none, none⟩], []⟩ ∧
      removeToast "z" ⟨[⟨"a", "info", none, none⟩], []⟩ =
        ⟨[⟨"a", "info", none, none⟩], []⟩ :=
  c5_idempotent_removal ⟨[⟨"a", "info", none, none⟩], []⟩
    ⟨[⟨"z", "info", none, none⟩], []⟩ "z" (by decide)

/-- C10: removing id `x` only drops entries whose id is `x`: the resulting
queue is a sublist of the original (so the surviving entries keep all
their fields and their relative order), every entry whose id differs from
`x` keeps its exact multiplicity, and the scheduled timers are
untouched. -/
theorem c10_remove_frame (ts : ToastState) (x : String) (t : ToastItem)
    (h : t.id ≠ x) :
    List.Sublist (removeToast x ts).toasts ts.toasts ∧
      (removeToast x ts).toasts.count t = ts.toasts.count t ∧
      (removeToast x ts).timers = ts.timers := by
  refine ⟨List.filter_sublist ts.toasts, ?_, rfl⟩
  exact List.count_filter (by simpa using h)

/-- C10 witness: concrete queue with one matching and one surviving
entry. -/
theorem c10_remove_frame_witness :
    List.Sublist
        (removeToast "x"
          ⟨[⟨"x", "info", none, none⟩, ⟨"y", "error", none, none⟩],
            [(5000, "x")]⟩).toasts
        [⟨"x", "info", none, none⟩, ⟨"y", "error", none, none⟩] ∧
      (removeToast "x"
          ⟨[⟨"x", "info", none, none⟩, ⟨"y", "error", none, none⟩],
            [(5000, "x")]⟩).toasts.count ⟨"y", "error", none, none⟩ =
        List.count (⟨"y", "error", none, none⟩ : ToastItem)
          [⟨"x", "info", none, none⟩, ⟨"y", "error", none, none⟩] ∧
      (removeToast "x"
          ⟨[⟨"x", "info", none, none⟩, ⟨"y", "error", none, none⟩],
            [(5000, "x")]⟩).timers = [(5000, "x")] :=
  c10_remove_frame
    ⟨[⟨"x", "info", none, none⟩, ⟨"y", "error", none, none⟩],
      [(5000, "x")]⟩ "x" ⟨"y", "error", none, none⟩ (by decide)

/-- Result of `await res.json()` for the message-history fetch, combined
with the `Array.isArray` check the handler performs: `failed msg` models
`res.json()` throwing an `Error` whose `message` is `msg`; `notArray`
models a parse that is not an array; `arrayOf data` a parsed message
array. -/
inductive HistoryJson where
  | failed (msg : String)
  | notArray
  | arrayOf (data : List Message)
deriving DecidableEq, Repr

/-- The awaited response of `GET /chat/room/{id}/messages`. -/
structure HistoryResponse where
  status : Nat
  json : HistoryJson
deriving DecidableEq, Repr

/-- Result of `await res.json()` for the room-metadata fetch: `failed msg`
models `res.json()` throwing, `value info` a parsed body (the handler
stores it without validation). -/
inductive RoomInfoJson where
  | failed (msg : String)
  | value (info : RoomInfo)
deriving DecidableEq, Repr

/-- The awaited response of `GET /chat/room/{id}`. -/
structure RoomInfoResponse where
  status : Nat
  json : RoomInfoJson
deriving DecidableEq, Repr

/-- `Response.ok` of the fetch API: status in the range 200..299. -/
def resOk (status : Nat) : Bool :=
  decide (200 ≤ status) && decide (status < 300)

/-- The `useState` hooks of the `ChatRoom` page, together with the ambient
browser state the handlers touch: `token` is `localStorage`'s "token" key,
`route` the router's current target, `toastState` the `useToast` state.
`roomId` is the route parameter (`none` models `undefined`). -/
structure ChatRoomState where
  roomId : Option String
  message : String
  messages : List Message
  roomInfo : Option RoomInfo
  isLoading : Bool
  isLoadingMessages : Bool
  error : String
  isSendingMessage : Bool
  copiedRoomId : Bool
  toastState : ToastState
  token : Option String
  route : String
deriving DecidableEq, Repr

/-- The continuation of `fetchRoomInfo` after `await fetch(...)` resolves
with `resp`: 401 clears the stored token and redirects to the login page;
404 and 403 set the blocking error message; any other non-ok status throws
`Error("Failed to fetch room information")`, caught by the surrounding
`catch` which stores its message; otherwise the parsed body is stored via
`setRoomInfo` (a `res.json()` failure is likewise caught and its message
stored). -/
def fetchRoomInfo (resp : RoomInfoResponse) (s : ChatRoomState) :
    ChatRoomState :=
  if resp.status = 401 then
    { s with token := none, route := "/auth/login" }
  else if resp.status = 404 then
    { s with error := "Room not found" }
  else if resp.status = 403 then
    { s with error := "You don't have access to this room" }
  else if !resOk resp.status then
    { s with error := "Failed to fetch room information" }
  else
    match resp.json with
    | .failed msg => { s with error := msg }
    | .value info => { s with roomInfo := some info }

/-- The branch structure of `fetchMessages` before its `finally`: same 401,
404, 403 and non-ok handling as `fetchRoomInfo` (with the message
"Failed to fetch messages" for the thrown error), then
`setMessages(Array.isArray(data) ? data : [])`. Note that no branch
compares the fetched room against the currently-active room. -/
def fetchMessagesCore (resp : HistoryResponse) (s : ChatRoomState) :
    ChatRoomState :=
  if resp.status = 401 then
    { s with token := none, route := "/auth/login" }
  else if resp.status = 404 then
    { s with error := "Room not found" }
  else if resp.status = 403 then
    { s with error := "You don't have access to this room" }
  else if !resOk resp.status then
    { s with error := "Failed to fetch messages" }
  else
    match resp.json with
    | .failed msg => { s with error := msg }
    | .notArray => { s with messages := [] }
    | .arrayOf data => { s with messages := data }

/-- The continuation of `fetchMessages` after its response resolves: the
branch structure above followed by the `finally` block, which runs
`setIsLoadingMessages(false)` on every path (including the early 401
return). -/
def fetchMessages (resp : HistoryResponse) (s : ChatRoomState) :
    ChatRoomState :=
  let s1 := fetchMessagesCore resp s
  { s1 with isLoadingMessages := false }

/-- `loadRoomData`: `await Promise.all([fetchRoomInfo(), fetchMessages()])`
followed by `setIsLoading(false)`. -/
def loadRoomData (r : RoomInfoResponse) (m : HistoryResponse)
    (s : ChatRoomState) : ChatRoomState :=
  let s1 := fetchMessages m (fetchRoomInfo r s)
  { s1 with isLoading := false }

/-- JavaScript falsiness of `roomId` (`!roomId`): `undefined` or the empty
string. -/
def strFalsy : Option String → Bool
  | none => true
  | some s => s == ""

/-- The transport effects a handler can emit: `socketSend content` is the
call `socketSendMessage(message)` into the socket hook. -/
inductive SendEffect where
  | socketSend (content : String)
deriving DecidableEq, Repr

/-- JavaScript's `String.prototype.trim`: strips whitespace from both
ends of the string (computed on the character sequence). -/
def jsTrim (s : String) : String :=
  ⟨((s.data.dropWhile Char.isWhitespace).reverse.dropWhile
      Char.isWhitespace).reverse⟩

/-- `handleSend` of the `ChatRoom` page: the guard
`if (!message.trim() || !roomId || isSendingMessage) return;` rejects
before any transport call; otherwise `socketSendMessage(message)` is
invoked (`sendThrows = some e` models it throwing an `Error` with message
`e`, in which case the input field is not cleared and the error is
stored), and the `finally` block resets `isSendingMessage`. The result
pairs the post-state with the emitted transport effects. -/
def handleSend (sendThrows : Option String) (s : ChatRoomState) :
    ChatRoomState × List SendEffect :=
  if jsTrim s.message = "" || strFalsy s.roomId || s.isSendingMessage then
    (s, [])
  else
    match sendThrows with
    | none =>
      ({ s with message := "", isSendingMessage := false },
        [.socketSend s.message])
    | some e =>
      ({ s with error := e, isSendingMessage := false },
        [.socketSend s.message])

/-- The merged message sequence the chat view renders:
`[...messages, ...socketMessages]` — the history state concatenated with
the socket hook's message list. -/
def renderMessages (messages socketMessages : List Message) :
    List Message :=
  messages ++ socketMessages

/-- The page-level views the `ChatRoom` component can return, in source
order: the invalid-room error page (`showRetry=false`), the loading page,
the blocking `ErrorPage` (with `onRetry`, so retryable), or the chat view
showing the toast container and the merged message list. -/
inductive ChatView where
  | invalidRoom
  | loadingPage
  | errorPage (description : String) (retryable : Bool)
  | chatView (toasts : List ToastItem) (rendered : List Message)
deriving DecidableEq, Repr

/-- The render function of the `ChatRoom` component: `if (!roomId)` the
invalid-room page, `if (isLoading)` the loading page, `if (error)` the
blocking retryable `ErrorPage`, otherwise the chat view with the toast
container and the merged list. -/
def renderView (s : ChatRoomState) (socketMessages : List Message) :
    ChatView :=
  if strFalsy s.roomId then .invalidRoom
  else if s.isLoading then .loadingPage
  else if s.error ≠ "" then .errorPage s.error true
  else .chatView s.toastState.toasts (renderMessages s.messages socketMessages)

/-- The display order the specification prescribes: non-decreasing
`createdAt`, ties broken by lexical order of `id` (strings compared
lexicographically as their character sequences). -/
def msgLE (a b : Message) : Prop :=
  a.createdAt.data < b.createdAt.data ∨
    (a.createdAt = b.createdAt ∧ (a.id.data < b.id.data ∨ a.id = b.id))

instance : DecidableRel msgLE := fun a b => by
  unfold msgLE
  infer_instance

/-- `setIsLoading(false)`, run by `loadRoomData` after both fetches settle
and by nothing else. -/
def finishLoad (s : ChatRoomState) : ChatRoomState :=
  { s with isLoading := false }

/-- A sample message author used in concrete scenarios. -/
def sampleUser : MsgUser :=
  ⟨"u1", "alice"⟩

/-- A sample message; in the echo scenario it is delivered both by the
history fetch and by the live stream. -/
def msgOne : Message :=
  ⟨"1", "hi", "2024-01-01T10:00:00Z", sampleUser⟩

/-- A sample message with the earlier `createdAt`. -/
def msgEarly : Message :=
  ⟨"a", "first", "2024-01-01T10:00:00Z", sampleUser⟩

/-- A sample message with the later `createdAt`. -/
def msgLate : Message :=
  ⟨"b", "second", "2024-01-01T11:00:00Z", sampleUser⟩

/-- A sample message belonging to room A, used in the stale-fetch
scenario. -/
def msgRoomA : Message :=
  ⟨"a1", "hello from A", "2024-01-01T09:00:00Z", sampleUser⟩

/-- A sample message belonging to room B. -/
def msgRoomB : Message :=
  ⟨"b1", "hello from B", "2024-01-01T09:30:00Z", sampleUser⟩

/-- The chat-room state while room B is active: room B's history is
loaded and no error is pending. -/
def stateRoomB : ChatRoomState :=
  { roomId := some "B"
    message := ""
    messages := [msgRoomB]
    roomInfo := some ⟨"B", "room b", 2⟩
    isLoading := false
    isLoadingMessages := false
    error := ""
    isSendingMessage := false
    copiedRoomId := false
    toastState := ⟨[], []⟩
    token := some "tok"
    route := "/chats/B"
    }

/-- C1 counterexample: the dedup claim is false on the code. The view
renders `[...messages, ...socketMessages]` without deduplication, so when
the same message (`msgOne`, the sender's own echo) arrives from both the
history fetch and the socket, its id appears twice in the rendered
sequence. -/
theorem c1_dedup_counterexample :
    ¬ ((renderMessages [msgOne] [msgOne]).map Message.id).Nodup := by
  decide

/-- C1 amended: the rendered sequence is the concatenation of the two
sources, so each id occurs exactly as often as in the history list and the
socket list combined — an id delivered by both sources is rendered twice,
not once. -/
theorem c1_no_dedup (hist sock : List Message) (x : String) :
    ((renderMessages hist sock).map Message.id).count x =
      (hist.map Message.id).count x + (sock.map Message.id).count x := by
  simp [renderMessages]

/-- C2 counterexample: the order claim is false on the code. A socket
message older than a history message is rendered after it, because the
view concatenates the two lists without sorting by `createdAt`. -/
theorem c2_sort_counterexample :
    ¬ List.Sorted msgLE (renderMessages [msgLate] [msgEarly]) := by
  decide

/-- C2 amended: the rendered sequence is sorted by non-decreasing
`createdAt` with `id` tie-break only when the arrival order already
agrees with it: each source arrives sorted and no socket message sorts
before any history message. No re-sorting is performed by the code. -/
theorem c2_sorted_only_if_arrival_sorted (hist sock : List Message)
    (h1 : List.Sorted msgLE hist) (h2 : List.Sorted msgLE sock)
    (h3 : ∀ a ∈ hist, ∀ b ∈ sock, msgLE a b) :
    List.Sorted msgLE (renderMessages hist sock) :=
  List.pairwise_append.mpr ⟨h1, h2, h3⟩

/-- C2 witness: a favourable arrival order, for which the concatenation is
sorted. -/
theorem c2_sorted_witness :
    List.Sorted msgLE (renderMessages [msgEarly] [msgLate]) :=
  c2_sorted_only_if_arrival_sorted [msgEarly] [msgLate] (by decide)
    (by decide) (by decide)

/-- C3 counterexample: the stale-room-guard claim is false on the code.
With room B active and fully loaded (`stateRoomB`), a late response of
room A's history fetch (status 200, body `[msgRoomA]`) overwrites the
messages state, and room A's message then appears in room B's rendered
merged view. -/
theorem c3_stale_counterexample :
    (fetchMessages ⟨200, .arrayOf [msgRoomA]⟩ stateRoomB).messages ≠
        stateRoomB.messages ∧
      msgRoomA ∈
        renderMessages
          (fetchMessages ⟨200, .arrayOf [msgRoomA]⟩ stateRoomB).messages
          [] := by
  decide

/-- C3 amended: `fetchMessages` installs a successful response's data
unconditionally — it performs no identity check of the fetched room
against the currently-active room, so a stale room-A response that
resolves after the switch to room B replaces room B's message state with
room A's data, which the merged view then renders. -/
theorem c3_stale_fetch_overwrites (s : ChatRoomState)
    (resp : HistoryResponse) (data sock : List Message) (m : Message)
    (h1 : resp.status = 200) (h2 : resp.json = .arrayOf data)
    (hm : m ∈ data) :
    (fetchMessages resp s).messages = data ∧
      m ∈ renderMessages (fetchMessages resp s).messages sock := by
  obtain ⟨st, js⟩ := resp
  simp only at h1 h2
  subst h1
  subst h2
  have hmsg : (fetchMessages ⟨200, .arrayOf data⟩ s).messages = data := by
    simp [fetchMessages, fetchMessagesCore, resOk]
  exact ⟨hmsg, by simp [renderMessages, hmsg, hm]⟩

/-- C3 witness: the concrete stale scenario of the counterexample, showing
the overwrite through the amended theorem. -/
theorem c3_stale_fetch_overwrites_witness :
    (fetchMessages ⟨200, .arrayOf [msgRoomA]⟩ stateRoomB).messages =
        [msgRoomA] ∧
      msgRoomA ∈
        renderMessages
          (fetchMessages ⟨200, .arrayOf [msgRoomA]⟩ stateRoomB).messages
          [] :=
  c3_stale_fetch_overwrites stateRoomB ⟨200, .arrayOf [msgRoomA]⟩
    [msgRoomA] [] msgRoomA rfl rfl (by decide)

/-- C6 counterexample: the fresh-unique-id claim is false on the code.
The id is `Date.now().toString()`, so two `addToast` calls within the same
millisecond (here both at time 5) are assigned the same id, and the queue
then holds two entries with the same id. -/
theorem c6_id_collision_counterexample :
    ¬ (((addToast 5 ⟨"error", none, none⟩
            (addToast 5 ⟨"success", none, none⟩ ⟨[], []⟩)).toasts.map
          ToastItem.id).Nodup) := by
  decide

/-- C6 amended: `addToast` derives the id solely from the creation
timestamp (`Date.now().toString()`); two add calls within the same
millisecond are therefore assigned the same id and the queue holds that
id (at least) twice afterwards — the queue can hold duplicate ids. -/
theorem c6_same_millisecond_same_id (now : Nat) (i1 i2 : ToastInput)
    (ts : ToastState) :
    2 ≤ ((addToast now i2 (addToast now i1 ts)).toasts.map
          ToastItem.id).count (toString now) := by
  simp [addToast]

/-- C7: a send attempt whose input trims to the empty string is a pure
no-op: `handleSend` returns before any transport call, so the state is
unchanged and no socket effect is emitted (and no error is produced). -/
theorem c7_empty_send_noop (o : Option String) (s : ChatRoomState)
    (h : jsTrim s.message = "") :
    handleSend o s = (s, []) := by
  simp [handleSend, h]

/-- C7 witness: a whitespace-only input field in the active room-B
state. -/
theorem c7_empty_send_noop_witness :
    handleSend none { stateRoomB with message := "  " } =
      ({ stateRoomB with message := "  " }, []) :=
  c7_empty_send_noop none { stateRoomB with message := "  " } (by decide)

/-- C8: a 401 response to either the room-metadata fetch or the
message-history fetch removes the stored bearer token, redirects to the
login page, and writes no room, message or error state from that
response. -/
theorem c8_unauthorized_discards_token (s s' : ChatRoomState)
    (r : RoomInfoResponse) (m : HistoryResponse)
    (h1 : r.status = 401) (h2 : m.status = 401) :
    (fetchRoomInfo r s).token = none ∧
      (fetchRoomInfo r s).route = "/auth/login" ∧
      (fetchRoomInfo r s).roomInfo = s.roomInfo ∧
      (fetchRoomInfo r s).messages = s.messages ∧
      (fetchRoomInfo r s).error = s.error ∧
      (fetchMessages m s').token = none ∧
      (fetchMessages m s').route = "/auth/login" ∧
      (fetchMessages m s').roomInfo = s'.roomInfo ∧
      (fetchMessages m s').messages = s'.messages ∧
      (fetchMessages m s').error = s'.error := by
  simp [fetchRoomInfo, fetchMessages, fetchMessagesCore, h1, h2]

/-- C8 witness: concrete 401 responses applied to the room-B state. -/
theorem c8_unauthorized_discards_token_witness :
    (fetchRoomInfo ⟨401, .failed "Unauthorized"⟩ stateRoomB).token = none ∧
      (fetchRoomInfo ⟨401, .failed "Unauthorized"⟩ stateRoomB).route =
        "/auth/login" ∧
      (fetchRoomInfo ⟨401, .failed "Unauthorized"⟩ stateRoomB).roomInfo =
        stateRoomB.roomInfo ∧
      (fetchRoomInfo ⟨401, .failed "Unauthorized"⟩ stateRoomB).messages =
        stateRoomB.messages ∧
      (fetchRoomInfo ⟨401, .failed "Unauthorized"⟩ stateRoomB).error =
        stateRoomB.error ∧
      (fetchMessages ⟨401, .failed "Unauthorized"⟩ stateRoomB).token =
        none ∧
      (fetchMessages ⟨401, .failed "Unauthorized"⟩ stateRoomB).route =
        "/auth/login" ∧
      (fetchMessages ⟨401, .failed "Unauthorized"⟩ stateRoomB).roomInfo =
        stateRoomB.roomInfo ∧
      (fetchMessages ⟨401, .failed "Unauthorized"⟩ stateRoomB).messages =
        stateRoomB.messages ∧
      (fetchMessages ⟨401, .failed "Unauthorized"⟩ stateRoomB).error =
        stateRoomB.error :=
  c8_unauthorized_discards_token stateRoomB stateRoomB
    ⟨401, .failed "Unauthorized"⟩ ⟨401, .failed "Unauthorized"⟩ rfl rfl

/-- C9: a 404 or 403 response to a room fetch adds no notification (the
toast state is untouched by both fetch handlers), and once loading
finishes the component renders the blocking, retryable `ErrorPage` with
the corresponding message in place of the chat view. Stated for the
interleaving in which the failing response is the last one applied before
`setIsLoading(false)`. -/
theorem c9_blocking_room_error (s s' : ChatRoomState)
    (r : RoomInfoResponse) (m : HistoryResponse)
    (sock sock' : List Message)
    (hr : r.status = 404 ∨ r.status = 403)
    (hm : m.status = 404 ∨ m.status = 403)
    (hroom : strFalsy s.roomId = false)
    (hroom' : strFalsy s'.roomId = false) :
    (fetchRoomInfo r s).toastState = s.toastState ∧
      (fetchMessages m s').toastState = s'.toastState ∧
      renderView (finishLoad (fetchRoomInfo r s)) sock =
        ChatView.errorPage
          (if r.status = 404 then "Room not found"
            else "You don't have access to this room") true ∧
      renderView (finishLoad (fetchMessages m s')) sock' =
        ChatView.errorPage
          (if m.status = 404 then "Room not found"
            else "You don't have access to this room") true := by
  obtain ⟨rs, rj⟩ := r
  obtain ⟨ms, mj⟩ := m
  simp only at hr hm
  rcases hr with hr | hr <;> rcases hm with hm | hm <;> subst hr <;>
    subst hm <;>
      simp [fetchRoomInfo, fetchMessages, fetchMessagesCore, renderView,
        finishLoad, hroom, hroom']

/-- C9 witness: concrete 404 (room metadata) and 403 (history) responses
in the room-B state. -/
theorem c9_blocking_room_error_witness :
    (fetchRoomInfo ⟨404, .failed "nf"⟩ stateRoomB).toastState =
        stateRoomB.toastState ∧
      (fetchMessages ⟨403, .notArray⟩ stateRoomB).toastState =
        stateRoomB.toastState ∧
      renderView (finishLoad (fetchRoomInfo ⟨404, .failed "nf"⟩ stateRoomB))
          [] =
        ChatView.errorPage
          (if (404 : Nat) = 404 then "Room not found"
            else "You don't have access to this room") true ∧
      renderView (finishLoad (fetchMessages ⟨403, .notArray⟩ stateRoomB))
          [] =
        ChatView.errorPage
          (if (403 : Nat) = 404 then "Room not found"
            else "You don't have access to this room") true :=
  c9_blocking_room_error stateRoomB stateRoomB ⟨404, .failed "nf"⟩
    ⟨403, .notArray⟩ [] [] (Or.inl rfl) (Or.inr rfl) (by decide) (by decide)
